import Mathlib

/-!
Shallow embedding of the NEO close-approach query project
(`helpers.py`, `models.py`, `filters.py`).

Python runtime values reachable in this code base are modelled by the
inductive `PyVal`.  Python floats are modelled as exact rationals plus a
distinguished not-a-number sentinel (`PFloat`); the source data are short
decimal literals and none of the verified properties depends on binary
rounding, only on NaN's comparison and truthiness behaviour.  Fallible
Python code (attribute access on `None`, `TypeError` from constructors,
`ValueError` from parsing) is modelled with `Except PyErr`.
-/

/-- Errors raised by the embedded Python fragments. -/
inductive PyErr where
  | typeError
  | valueError
  | attributeError
deriving DecidableEq, Repr

/-- A Python float: either the NaN sentinel (`float('nan')`) or an exact
numeric value. -/
inductive PFloat where
  | nan
  | val (q : ℚ)
deriving DecidableEq, Repr

/-- `a >= b` on floats: any comparison involving NaN is `False`. -/
def pfGE : PFloat → PFloat → Bool
  | .val a, .val b => decide (b ≤ a)
  | _, _ => false

/-- `a == b` on floats: NaN is never equal to anything, itself included. -/
def pfEq : PFloat → PFloat → Bool
  | .val a, .val b => decide (a = b)
  | _, _ => false

/-- A `datetime.date`. -/
structure PyDate where
  year : Nat
  month : Nat
  day : Nat
deriving DecidableEq, Repr

/-- `a <= b` on dates (lexicographic on year, month, day). -/
def PyDate.le (a b : PyDate) : Bool :=
  decide (a.year < b.year ∨ (a.year = b.year ∧
    (a.month < b.month ∨ (a.month = b.month ∧ a.day ≤ b.day))))

/-- A naive `datetime.datetime`.  The repository's data carry no seconds
(the `cd` format is minute-resolution and `%M` is the finest field both
helpers touch), so the embedding stops at minutes: every embedded
timestamp has zero seconds. -/
structure PyDateTime where
  year : Nat
  month : Nat
  day : Nat
  hour : Nat
  minute : Nat
deriving DecidableEq, Repr

/-- The `datetime.date()` method. -/
def PyDateTime.date (t : PyDateTime) : PyDate :=
  ⟨t.year, t.month, t.day⟩

/-- `a <= b` on datetimes (lexicographic on all five fields). -/
def PyDateTime.le (a b : PyDateTime) : Bool :=
  if a.year ≠ b.year then decide (a.year < b.year)
  else if a.month ≠ b.month then decide (a.month < b.month)
  else if a.day ≠ b.day then decide (a.day < b.day)
  else if a.hour ≠ b.hour then decide (a.hour < b.hour)
  else decide (a.minute ≤ b.minute)

/-- The Python runtime values reachable in this program.  A
`NearEarthObject` instance is the variant `neoObj` carrying its four data
attributes (`designation`, `name`, `diameter`, `hazardous`), so that an
NEO can itself be passed around as a value (as `CloseApproach.fullname`
does). -/
inductive PyVal where
  | none
  | str (s : String)
  | float (f : PFloat)
  | bool (b : Bool)
  | dt (t : PyDateTime)
  | date (d : PyDate)
  | neoObj (designation name diameter hazardous : PyVal)
deriving DecidableEq, Repr

/-- Python truthiness (`bool(value)`).  Note that `float('nan')` is
truthy. -/
def truthy : PyVal → Bool
  | .none => false
  | .str s => s != ""
  | .float .nan => true
  | .float (.val q) => q != 0
  | .bool b => b
  | .dt _ => true
  | .date _ => true
  | .neoObj _ _ _ _ => true

/-- `type(value)(value)`: the class of `value` called with `value` as a
single positional argument.  `str`, `float` and `bool` return the value
unchanged; `NearEarthObject`'s keyword-only constructor rejects a
positional argument with a `TypeError`, and so do `datetime`, `date` and
`NoneType`. -/
def typeSelfConv : PyVal → Except PyErr PyVal
  | .str s => .ok (.str s)
  | .float f => .ok (.float f)
  | .bool b => .ok (.bool b)
  | .none => .error .typeError
  | .dt _ => .error .typeError
  | .date _ => .error .typeError
  | .neoObj _ _ _ _ => .error .typeError

/-- `helpers.default_if_empty(value, default_value, return_format=False)`.

The Python default `return_format=False` is falsy, in which case the
source sets `return_format = type(value)`; this is modelled by the
`Option` argument (`Option.none` means "no converter supplied", mapping
to `typeSelfConv`).  The converter is applied only when `value` is
truthy. -/
def default_if_empty (value default_value : PyVal)
    (return_format : Option (PyVal → Except PyErr PyVal)) : Except PyErr PyVal :=
  let fmt := match return_format with
    | .none => typeSelfConv
    | .some f => f
  if truthy value then fmt value else .ok default_value

/-- `helpers.y_to_true(x)`: `x == "Y"` resolves to `True`, anything else
to `False` (Python `==` across types is `False`, never an error). -/
def y_to_true (x : PyVal) : Except PyErr PyVal :=
  if x = .str "Y" then .ok (.bool true) else .ok (.bool false)

/-! ### Decimal rendering (`strftime` zero-padded numeric fields) -/

/-- The ASCII digit character of `n % 10`. -/
def digitChar (n : Nat) : Char := Char.ofNat (48 + n % 10)

/-- Fuelled decimal rendering of a natural number (most significant digit
first); the fuel is structural so the definition reduces by `decide`. -/
def natReprAux : Nat → Nat → List Char
  | 0, _ => []
  | fuel + 1, n =>
      if n < 10 then [digitChar n] else natReprAux fuel (n / 10) ++ [digitChar n]

/-- Decimal rendering of a natural number. -/
def natStr (n : Nat) : List Char := natReprAux (n + 1) n

/-- Left-pad with `'0'` to width `w` (as `%0wd` does). -/
def padZeros (w : Nat) (l : List Char) : List Char :=
  List.replicate (w - l.length) '0' ++ l

/-- The characters of `strftime("%Y-%m-%d %H:%M")`: four-digit year,
two-digit numeric month, day, hour and minute. -/
def formatChars (t : PyDateTime) : List Char :=
  padZeros 4 (natStr t.year) ++ '-' :: padZeros 2 (natStr t.month) ++
    '-' :: padZeros 2 (natStr t.day) ++ ' ' :: padZeros 2 (natStr t.hour) ++
    ':' :: padZeros 2 (natStr t.minute)

/-- `helpers.datetime_to_str(dt)`: render a naive datetime as
`YYYY-MM-DD HH:MM` (ISO numeric month, no seconds). -/
def datetime_to_str (t : PyDateTime) : String := ⟨formatChars t⟩

/-! ### `strptime` for the NASA `cd` format `%Y-%b-%d %H:%M` -/

/-- Read one ASCII digit. -/
def readDigit (c : Char) : Option Nat :=
  if c.isDigit then some (c.toNat - 48) else none

/-- `%Y`: exactly four digits (CPython compiles `%Y` to `\d\d\d\d`). -/
def read4Digits : List Char → Option (Nat × List Char)
  | a :: b :: c :: d :: rest =>
      match readDigit a, readDigit b, readDigit c, readDigit d with
      | some x, some y, some z, some w => some (1000 * x + 100 * y + 10 * z + w, rest)
      | _, _, _, _ => none
  | _ => none

/-- Match one literal character of the format string. -/
def expectChar (c : Char) : List Char → Option (List Char)
  | x :: rest => if x = c then some rest else none
  | [] => none

/-- ASCII lowercasing (CPython matches `%b` case-insensitively). -/
def lowerChar (c : Char) : Char :=
  if 'A' ≤ c ∧ c ≤ 'Z' then Char.ofNat (c.toNat + 32) else c

/-- The English month abbreviations recognised by `%b`, lowercased. -/
def monthTable : List (List Char × Nat) :=
  [(['j', 'a', 'n'], 1), (['f', 'e', 'b'], 2), (['m', 'a', 'r'], 3),
   (['a', 'p', 'r'], 4), (['m', 'a', 'y'], 5), (['j', 'u', 'n'], 6),
   (['j', 'u', 'l'], 7), (['a', 'u', 'g'], 8), (['s', 'e', 'p'], 9),
   (['o', 'c', 't'], 10), (['n', 'o', 'v'], 11), (['d', 'e', 'c'], 12)]

/-- `%b`: a three-letter English month abbreviation, case-insensitive. -/
def readMonth : List Char → Option (Nat × List Char)
  | a :: b :: c :: rest =>
      match monthTable.find? (fun p => p.1 == [lowerChar a, lowerChar b, lowerChar c]) with
      | some p => some (p.2, rest)
      | none => none
  | _ => none

/-- `%d` / `%H` / `%M`: one or two digits, greedy. -/
def read2Digits : List Char → Option (Nat × List Char)
  | a :: b :: rest =>
      match readDigit a with
      | none => none
      | some x =>
          match readDigit b with
          | some y => some (10 * x + y, rest)
          | none => some (x, b :: rest)
  | [a] => (readDigit a).map (fun x => (x, ([] : List Char)))
  | [] => none

/-- Gregorian leap year. -/
def isLeapYear (y : Nat) : Bool :=
  y % 4 == 0 && (y % 100 != 0 || y % 400 == 0)

/-- Number of days in a month. -/
def daysInMonth (y m : Nat) : Nat :=
  if m = 2 then (if isLeapYear y then 29 else 28)
  else if m = 4 ∨ m = 6 ∨ m = 9 ∨ m = 11 then 30
  else 31

/-- The field ranges `datetime.datetime` accepts (`MINYEAR`..`MAXYEAR`,
valid month, day within the month, 24-hour clock); every timestamp a
successful `strptime` builds satisfies this. -/
def validDateTime (t : PyDateTime) : Prop :=
  1 ≤ t.year ∧ t.year ≤ 9999 ∧ 1 ≤ t.month ∧ t.month ≤ 12 ∧
    1 ≤ t.day ∧ t.day ≤ daysInMonth t.year t.month ∧ t.hour ≤ 23 ∧ t.minute ≤ 59

instance (t : PyDateTime) : Decidable (validDateTime t) := by
  unfold validDateTime; infer_instance

/-- `strptime(cs, "%Y-%b-%d %H:%M")` over a character list: the whole
input must be consumed, the numeric fields must satisfy the format's
ranges (day 1–31, hour 0–23, minute 0–59) and the resulting fields must
form a valid `datetime`. -/
def cdParse (cs : List Char) : Option PyDateTime :=
  match read4Digits cs with
  | none => none
  | some (y, r1) =>
  match expectChar '-' r1 with
  | none => none
  | some r2 =>
  match readMonth r2 with
  | none => none
  | some (m, r3) =>
  match expectChar '-' r3 with
  | none => none
  | some r4 =>
  match read2Digits r4 with
  | none => none
  | some (d, r5) =>
  match expectChar ' ' r5 with
  | none => none
  | some r6 =>
  match read2Digits r6 with
  | none => none
  | some (h, r7) =>
  match expectChar ':' r7 with
  | none => none
  | some r8 =>
  match read2Digits r8 with
  | none => none
  | some (mi, r9) =>
  if r9 = [] ∧ 1 ≤ d ∧ d ≤ 31 ∧ h ≤ 23 ∧ mi ≤ 59 ∧ validDateTime ⟨y, m, d, h, mi⟩ then
    some ⟨y, m, d, h, mi⟩
  else
    none

/-- `helpers.cd_to_datetime(calendar_date)`: parse NASA's
`YYYY-Mon-DD HH:MM` format; `Option.none` models the `ValueError` raised
on mismatch. -/
def cd_to_datetime (s : String) : Option PyDateTime := cdParse s.data

/-! ### `float()` on decimal strings -/

/-- Accumulate a digit list into a natural number. -/
def digitsToNat (l : List Char) : Nat :=
  l.foldl (fun a c => 10 * a + (c.toNat - 48)) 0

/-- Parse an unsigned decimal literal `digits[.digits]` (at least one
digit overall). -/
def parseUnsigned (s : List Char) : Option ℚ :=
  let intPart := s.takeWhile Char.isDigit
  let rest := s.dropWhile Char.isDigit
  match rest with
  | [] => if intPart = [] then none else some (digitsToNat intPart)
  | '.' :: frac =>
      if frac.all Char.isDigit ∧ (intPart ≠ [] ∨ frac ≠ []) then
        some ((digitsToNat intPart : ℚ) + (digitsToNat frac : ℚ) / (10 ^ frac.length))
      else none
  | _ => none

/-- Parse a possibly-negated decimal literal. -/
def parseDecimal (s : String) : Option ℚ :=
  match s.data with
  | '-' :: rest => (parseUnsigned rest).map (fun q => -q)
  | l => parseUnsigned l

/-- The `float` constructor as a converter: parses decimal strings
(`ValueError` on anything unparsable), passes floats through, and turns
booleans into 0/1. -/
def floatConv : PyVal → Except PyErr PyVal
  | .str s =>
      match parseDecimal s with
      | some q => .ok (.float (.val q))
      | none => .error .valueError
  | .float f => .ok (.float f)
  | .bool b => .ok (.float (.val (if b then 1 else 0)))
  | _ => .error .typeError

/-- `cd_to_datetime` as a converter: `strptime` demands a string
(`TypeError` otherwise) and raises `ValueError` on mismatch. -/
def cdConv : PyVal → Except PyErr PyVal
  | .str s =>
      match cd_to_datetime s with
      | some t => .ok (.dt t)
      | none => .error .valueError
  | _ => .error .typeError

/-! ### `models.py` -/

/-- The raw field mapping `NearEarthObject.__init__` consumes. -/
structure NeoInfo where
  pdes : String
  name : String
  diameter : String
  pha : String
deriving DecidableEq, Repr

/-- `NearEarthObject.__init__`: `designation` is the raw `pdes` field;
`name`, `diameter` and `hazardous` go through `default_if_empty` exactly
as in the source (`None`, `float('nan')` with converter `float`, and
`False` with converter `y_to_true` respectively). -/
def NearEarthObject.build (info : NeoInfo) : Except PyErr PyVal := do
  let name ← default_if_empty (.str info.name) .none .none
  let diameter ← default_if_empty (.str info.diameter) (.float .nan) (.some floatConv)
  let hazardous ← default_if_empty (.str info.pha) (.bool false) (.some y_to_true)
  .ok (.neoObj (.str info.pdes) name diameter hazardous)

/-- `NearEarthObject.serialize`: an insertion-ordered mapping with keys
`designation`, `name`, `diameter_km` and `potentially_hazardous`, where
the diameter entry is `default_if_empty(self.diameter, 'unknown')`. -/
def NearEarthObject.serialize : PyVal → Except PyErr (List (String × PyVal))
  | .neoObj des nm diam haz => do
      let dk ← default_if_empty diam (.str "unknown") .none
      .ok [("designation", des), ("name", nm), ("diameter_km", dk),
           ("potentially_hazardous", haz)]
  | _ => .error .attributeError

/-- Attribute access `value.diameter`: only an NEO instance has it;
`None` (and every other value) raises `AttributeError`. -/
def PyVal.getDiameter : PyVal → Except PyErr PyVal
  | .neoObj _ _ d _ => .ok d
  | _ => .error .attributeError

/-- Attribute access `value.hazardous`. -/
def PyVal.getHazardous : PyVal → Except PyErr PyVal
  | .neoObj _ _ _ h => .ok h
  | _ => .error .attributeError

/-- A `CloseApproach` instance. -/
structure CloseApproach where
  designationKey : PyVal
  time : PyVal
  distance : PyVal
  velocity : PyVal
  neo : PyVal
deriving DecidableEq, Repr

/-- The raw field mapping `CloseApproach.__init__` consumes. -/
structure CaInfo where
  des : String
  cd : String
  dist : String
  v_rel : String
deriving DecidableEq, Repr

/-- `CloseApproach.__init__`: `_designation` is the raw `des` field;
`time`, `distance` and `velocity` go through `default_if_empty` with the
converters `cd_to_datetime`, `float`, `float`; `neo` starts as `None`. -/
def CloseApproach.build (info : CaInfo) : Except PyErr CloseApproach := do
  let time ← default_if_empty (.str info.cd) .none (.some cdConv)
  let dist ← default_if_empty (.str info.dist) (.float (.val 0)) (.some floatConv)
  let vel ← default_if_empty (.str info.v_rel) (.float (.val 0)) (.some floatConv)
  .ok ⟨.str info.des, time, dist, vel, .none⟩

/-- Python `+` as used by `fullname`: string concatenation, numeric
addition (NaN absorbing), `TypeError` on anything else. -/
def pyAdd : PyVal → PyVal → Except PyErr PyVal
  | .str a, .str b => .ok (.str (a ++ b))
  | .float (.val a), .float (.val b) => .ok (.float (.val (a + b)))
  | .float _, .float _ => .ok (.float .nan)
  | _, _ => .error .typeError

/-- `CloseApproach.fullname`:
`self._designation + default_if_empty(self.neo, "")` — note the missing
converter, so a truthy `neo` goes through `type(self.neo)(self.neo)`. -/
def CloseApproach.fullname (a : CloseApproach) : Except PyErr PyVal := do
  let tail ← default_if_empty a.neo (.str "") .none
  pyAdd a.designationKey tail

/-- `CloseApproach.time_str`: `datetime_to_str(self.time)`; `strftime`
applied to anything but a datetime raises `TypeError`. -/
def CloseApproach.time_str (a : CloseApproach) : Except PyErr String :=
  match a.time with
  | .dt t => .ok (datetime_to_str t)
  | _ => .error .typeError

/-- Round half to even (the tie rule of Python's fixed-point
formatting). -/
def roundHalfEven (q : ℚ) : Int :=
  let f : Int := ⌊q⌋
  let r : ℚ := q - f
  if r < 1 / 2 then f
  else if 1 / 2 < r then f + 1
  else if f % 2 = 0 then f else f + 1

/-- `f"{x:.2f}"` on a float. -/
def fmtFix2 : PFloat → String
  | .nan => "nan"
  | .val q =>
      let n := roundHalfEven (q * 100)
      let sign := if n < 0 then "-" else ""
      let m := n.natAbs
      sign ++ (⟨natStr (m / 100)⟩ : String) ++ "." ++ (⟨padZeros 2 (natStr (m % 100))⟩ : String)

/-- `f"{v:.2f}"` on a runtime value: only floats are reachable here. -/
def fmtValFix2 : PyVal → Except PyErr String
  | .float f => .ok (fmtFix2 f)
  | _ => .error .typeError

/-- `CloseApproach.__str__`.  The first line of the source computes a
dead local `time` whose condition is inverted (`f"{self.time_str}" if
not self.time else "unkown date"`): a falsy `time` triggers `time_str`,
which raises `TypeError` on `None`.  The f-string then evaluates
`self.time_str`, `self.fullname`, and the two `:.2f` fields left to
right. -/
def CloseApproach.toStr (a : CloseApproach) : Except PyErr String := do
  let _time ← if truthy a.time = false then a.time_str else pure "unkown date"
  let ts ← a.time_str
  let fn ← a.fullname
  let fns ← match fn with
    | .str s => Except.ok s
    | _ => Except.error PyErr.typeError
  let ds ← fmtValFix2 a.distance
  let vs ← fmtValFix2 a.velocity
  .ok ("A CloseApproach event at " ++ ts ++ ", of " ++ fns ++
    " approching Earth at a distance of " ++ ds ++ " au and a velocity of " ++
    vs ++ " km/s.")

/-! ### `filters.py` -/

/-- The five concrete filter kinds (each a subclass overriding `get`). -/
inductive FilterKind where
  | date
  | distance
  | velocity
  | diameter
  | hazardous
deriving DecidableEq, Repr

/-- The comparators `create_filters` uses (`operator.eq`, `operator.ge`,
`operator.le`). -/
inductive Op where
  | eq
  | ge
  | le
deriving DecidableEq, Repr

/-- Numeric view of a value (Python treats `bool` as a number). -/
def toNum : PyVal → Option PFloat
  | .float f => some f
  | .bool b => some (.val (if b then 1 else 0))
  | _ => none

/-- Python `a >= b` for the value sorts comparable in this program;
mixed non-numeric sorts raise `TypeError`. -/
def pyGE (a b : PyVal) : Except PyErr Bool :=
  match toNum a, toNum b with
  | some x, some y => .ok (pfGE x y)
  | _, _ =>
      match a, b with
      | .date x, .date y => .ok (PyDate.le y x)
      | .dt x, .dt y => .ok (PyDateTime.le y x)
      | _, _ => .error .typeError

/-- Python `a <= b` (coincides with `b >= a` on these sorts, NaN
included). -/
def pyLE (a b : PyVal) : Except PyErr Bool := pyGE b a

/-- Python `a == b`: numeric equality across numbers (NaN unequal to
everything), structural equality within a sort, `False` across sorts.
Identity equality of NEO instances is irrelevant here: no filter compares
object references. -/
def pyEq (a b : PyVal) : Bool :=
  match toNum a, toNum b with
  | some x, some y => pfEq x y
  | _, _ =>
      match a, b with
      | .str x, .str y => x == y
      | .date x, .date y => x == y
      | .dt x, .dt y => x == y
      | .none, .none => true
      | _, _ => false

/-- Apply a comparator: `operator.eq` never raises on these values;
`ge`/`le` may raise `TypeError` on incomparable sorts. -/
def applyOp : Op → PyVal → PyVal → Except PyErr Bool
  | .eq, a, b => .ok (pyEq a b)
  | .ge, a, b => pyGE a b
  | .le, a, b => pyLE a b

/-- An `AttributeFilter` (or concrete subclass): the kind selects the
overridden `get`, and `op`/`value` are the constructor arguments. -/
structure AttributeFilter where
  kind : FilterKind
  op : Op
  value : PyVal
deriving DecidableEq, Repr

/-- The overridden `get` classmethods: `DateFilter` returns
`approach.time.date()` (an `AttributeError` when `time` is not a
datetime), `DistanceFilter`/`VelocityFilter` return the attribute
directly, and `DiameterFilter`/`HazardousFilter` dereference
`approach.neo`. -/
def AttributeFilter.get : FilterKind → CloseApproach → Except PyErr PyVal
  | .date, a =>
      match a.time with
      | .dt t => .ok (.date t.date)
      | _ => .error .attributeError
  | .distance, a => .ok a.distance
  | .velocity, a => .ok a.velocity
  | .diameter, a => PyVal.getDiameter a.neo
  | .hazardous, a => PyVal.getHazardous a.neo

/-- `AttributeFilter.__call__`: if `self.value != None` evaluate
`self.op(self.get(approach), self.value)`, otherwise return `True`. -/
def AttributeFilter.call (f : AttributeFilter) (a : CloseApproach) : Except PyErr Bool :=
  if f.value ≠ PyVal.none then
    match AttributeFilter.get f.kind a with
    | .ok v => applyOp f.op v f.value
    | .error e => .error e
  else
    .ok true

/-! ### `filters.limit` -/

/-- The body of `limit`'s `else` branch, run to exhaustion: walk the
iterator, incrementing `i` after each element is pulled, yielding while
`i <= n` and returning as soon as `i > n`.  The result pairs the yielded
elements with the number of elements actually pulled from the underlying
iterator. -/
def limitAux {α : Type u} : List α → Int → Nat → List α × Nat
  | [], _, _ => ([], 0)
  | x :: xs, n, i =>
      if ((i + 1 : Nat) : Int) ≤ n then
        let r := limitAux xs n (i + 1)
        (x :: r.1, r.2 + 1)
      else
        ([], 1)

/-- `filters.limit(iterator, n=None)` driven to exhaustion over a finite
underlying sequence: returns the yielded elements together with the
number of elements pulled from the underlying iterator.  When `n` is
`None` or `0` the whole input is yielded (and consumed). -/
def limitRun {α : Type u} (seq : List α) : Option Int → List α × Nat
  | .none => (seq, seq.length)
  | .some n => if n = 0 then (seq, seq.length) else limitAux seq n 0

/-! ## Helper lemmas -/

theorem limitAux_spec {α : Type u} (seq : List α) (n : Int) :
    ∀ i : Nat, 0 < n → (i : Int) ≤ n →
      limitAux seq n i = (seq.take (n - i).toNat, min ((n - i).toNat + 1) seq.length) := by
  induction seq with
  | nil =>
      intro i hn hi
      simp [limitAux]
  | cons x xs ih =>
      intro i hn hi
      by_cases h : ((i + 1 : Nat) : Int) ≤ n
      · have hrec := ih (i + 1) hn h
        have h1 : (n - (i : Int)).toNat = (n - ((i : Int) + 1)).toNat + 1 := by
          push_cast at h ⊢
          omega
        simp only [limitAux, if_pos h, hrec]
        rw [h1]
        rw [List.take_succ_cons]
        refine Prod.ext rfl ?_
        simp only [List.length_cons]
        omega
      · have hieq : (i : Int) = n := by
          push_cast at h
          omega
        have h0 : (n - (i : Int)).toNat = 0 := by omega
        simp only [limitAux, if_neg h, h0]
        refine Prod.ext rfl ?_
        simp only [List.take_zero, List.length_cons]
        omega


/-! ## Claim theorems: `limit` -/

/-- Claim C2, counterexample: with `seq = [10, 20, 30]` and `k = 1`,
driving `limit(seq, 1)` to exhaustion pulls 2 elements from the
underlying iterator — the (k+1)-th element is consumed, contrary to the
claim that `limit` never pulls past the k-th element. -/
theorem limit_overconsumes_counterexample :
    (limitRun [10, 20, 30] (some 1)).2 = 2 := by decide

/-- Claim C2 (amended): for every positive `k`, `limit(seq, k)` yields
exactly the first `min(k, len(seq))` elements of `seq` in order, but when
run to exhaustion it consumes `min(k+1, len(seq))` elements from the
underlying iterator — one more than it yields whenever the input is
longer than `k`. -/
theorem limit_yields_take_but_overconsumes {α : Type u} (seq : List α) (k : Int)
    (hk : 0 < k) :
    limitRun seq (some k) = (seq.take k.toNat, min (k.toNat + 1) seq.length) := by
  have hne : ¬ k = 0 := by omega
  have h := limitAux_spec seq k 0 hk (by omega)
  simpa [limitRun, hne] using h

/-- Claim C2, witness: at `seq = [10, 20, 30]`, `k = 2` the hypothesis
`0 < 2` holds and the theorem evaluates to `([10, 20], 3)`. -/
theorem limit_yields_take_but_overconsumes_witness :
    limitRun [10, 20, 30] (some 2) = ([10, 20], 3) := by
  have h := limit_yields_take_but_overconsumes [10, 20, 30] 2 (by decide)
  simpa using h

/-- Claim C7: `limit(seq, None)` and `limit(seq, 0)` both yield the
entire input sequence unchanged, element for element in order. -/
theorem limit_none_and_zero_yield_all {α : Type u} (seq : List α) :
    limitRun seq none = (seq, seq.length) ∧
      limitRun seq (some 0) = (seq, seq.length) := by
  constructor <;> simp [limitRun]

/-- Claim C10, counterexample: on the empty sequence with `n = -1`,
`limit` consumes no element at all (there is none to pull), contradicting
the claim that it always consumes exactly one element. -/
theorem limit_negative_counterexample :
    (limitRun ([] : List Nat) (some (-1))).2 ≠ 1 := by decide

/-- Claim C10 (amended): for every negative `n`, `limit(seq, n)` yields
no elements at all (the negative case is not treated like the 0/None
no-limit case), and it consumes exactly `min(1, len(seq))` elements from
the underlying iterator — one element when the input is nonempty, none
when it is empty. -/
theorem limit_negative_yields_nothing {α : Type u} (seq : List α) (n : Int)
    (hn : n < 0) :
    limitRun seq (some n) = ([], min 1 seq.length) := by
  have hne : ¬ n = 0 := by omega
  cases seq with
  | nil => simp [limitRun, hne, limitAux]
  | cons x xs =>
      have hlt : ¬ (((0 + 1 : Nat) : Int) ≤ n) := by push_cast; omega
      simp only [limitRun, if_neg hne, limitAux, if_neg hlt, List.length_cons]
      refine Prod.ext rfl ?_
      simp only []
      omega

/-- Claim C10, witness: at `seq = [10, 20, 30]`, `n = -1` the hypothesis
`-1 < 0` holds and the theorem evaluates to `([], 1)`. -/
theorem limit_negative_yields_nothing_witness :
    limitRun [10, 20, 30] (some (-1)) = ([], 1) := by
  have h := limit_negative_yields_nothing [10, 20, 30] (-1) (by decide)
  simpa using h

/-! ## Claim theorems: filters -/

/-- Claim C5: every filter kind constructed with the unset sentinel
(`None`) as its reference value returns `True` on every close approach —
the attribute accessor is never even evaluated. -/
theorem unset_filter_passes (k : FilterKind) (op : Op) (a : CloseApproach) :
    AttributeFilter.call ⟨k, op, PyVal.none⟩ a = .ok true := by
  simp [AttributeFilter.call]

/-- Claim C6: a `DiameterFilter` with comparator `>=` and a set (float)
reference value returns `False` on every approach linked to an NEO whose
diameter is the NaN sentinel: NaN never satisfies `>=`. -/
theorem nan_diameter_fails_min_filter (a : CloseApproach) (des nm hz : PyVal)
    (v : PFloat) (h : a.neo = .neoObj des nm (.float .nan) hz) :
    AttributeFilter.call ⟨.diameter, .ge, .float v⟩ a = .ok false := by
  cases v <;>
    simp [AttributeFilter.call, AttributeFilter.get, PyVal.getDiameter, h,
      applyOp, pyGE, toNum, pfGE]

/-- Claim C6, witness: an approach whose NEO has NaN diameter fails a
`DiameterFilter` with `diameter_min = 1.0`. -/
theorem nan_diameter_fails_min_filter_witness :
    AttributeFilter.call ⟨.diameter, .ge, .float (.val 1)⟩
      ⟨.str "433", .none, .float (.val 0), .float (.val 0),
        .neoObj (.str "433") .none (.float .nan) (.bool false)⟩ = .ok false :=
  nan_diameter_fails_min_filter _ _ _ _ _ rfl

/-- Claim C9: on an approach whose time is absent (`None`), a
`DateFilter` with a set reference date raises an `AttributeError` (the
accessor evaluates `approach.time.date()` on `None`) instead of
returning a boolean. -/
theorem date_filter_missing_time_raises (a : CloseApproach) (op : Op) (d : PyDate)
    (h : a.time = PyVal.none) :
    AttributeFilter.call ⟨.date, op, .date d⟩ a = .error .attributeError := by
  simp [AttributeFilter.call, AttributeFilter.get, h]

/-- Claim C9, witness: a concrete approach with `time = None` against a
`DateFilter` for 2020-12-31. -/
theorem date_filter_missing_time_raises_witness :
    AttributeFilter.call ⟨.date, .eq, .date ⟨2020, 12, 31⟩⟩
      ⟨.str "433", .none, .float (.val 0), .float (.val 0), .none⟩ =
      .error .attributeError :=
  date_filter_missing_time_raises _ _ _ rfl

/-- Claim C4, counterexample: on an unlinked approach (`neo` is `None`),
a `DiameterFilter` with the set reference value `1.0` does not silently
fail to match (it does not return `False`): it raises an
`AttributeError`. -/
theorem unlinked_neo_filter_counterexample :
    AttributeFilter.call ⟨.diameter, .ge, .float (.val 1)⟩
        ⟨.str "433", .none, .float (.val 0), .float (.val 0), .none⟩ ≠
        .ok false ∧
      AttributeFilter.call ⟨.diameter, .ge, .float (.val 1)⟩
        ⟨.str "433", .none, .float (.val 0), .float (.val 0), .none⟩ =
        .error .attributeError :=
  ⟨fun h => Except.noConfusion h, rfl⟩

/-- Claim C4 (amended): evaluating a `DiameterFilter` or
`HazardousFilter` with a set reference value on an unlinked approach
(`neo` is `None`) raises an `AttributeError` — the approach is not
skipped silently. -/
theorem unlinked_neo_filter_raises (a : CloseApproach) (op : Op) (v : PyVal)
    (hneo : a.neo = PyVal.none) (hv : v ≠ PyVal.none) :
    AttributeFilter.call ⟨.diameter, op, v⟩ a = .error .attributeError ∧
      AttributeFilter.call ⟨.hazardous, op, v⟩ a = .error .attributeError := by
  constructor <;>
    simp [AttributeFilter.call, AttributeFilter.get, PyVal.getDiameter,
      PyVal.getHazardous, hneo, hv]

/-- Claim C4, witness: a concrete unlinked approach against a
`DiameterFilter` and a `HazardousFilter` with set reference values. -/
theorem unlinked_neo_filter_raises_witness :
    AttributeFilter.call ⟨.diameter, .ge, .float (.val 1)⟩
        ⟨.str "433", .none, .float (.val 0), .float (.val 0), .none⟩ =
        .error .attributeError ∧
      AttributeFilter.call ⟨.hazardous, .ge, .float (.val 1)⟩
        ⟨.str "433", .none, .float (.val 0), .float (.val 0), .none⟩ =
        .error .attributeError :=
  unlinked_neo_filter_raises _ .ge _ rfl (by decide)

theorem exceptBindOk {ε : Type u} {α β : Type v} (a : α) (f : α → Except ε β) :
    (Except.ok a >>= f) = f a := rfl

theorem exceptBindError {ε : Type u} {α β : Type v} (e : ε) (f : α → Except ε β) :
    ((Except.error e : Except ε α) >>= f) = Except.error e := rfl

/-! ## Claim theorems: models -/

/-- Claim C3 (code bug): an NEO built from a record with an empty
diameter field gets the NaN diameter sentinel, but `serialize` then maps
it to the float NaN, not to the string `"unknown"`: `default_if_empty`
tests Python truthiness and NaN is truthy, so the `'unknown'` default the
code supplies is never taken. -/
theorem empty_diameter_serializes_to_nan :
    (NearEarthObject.build ⟨"433", "Eros", "", "N"⟩).bind NearEarthObject.serialize =
      .ok [("designation", .str "433"), ("name", .str "Eros"),
           ("diameter_km", .float .nan), ("potentially_hazardous", .bool false)] := by
  rfl

/-- Claim C8: on every approach whose `neo` attribute has been set to an
NEO instance, `fullname` raises a `TypeError` — `default_if_empty`
defaults its converter to `type(value)`, so it calls the keyword-only
`NearEarthObject` constructor with a positional argument — and
consequently `str()` of a linked approach fails with a `TypeError` as
well. -/
theorem linked_fullname_raises_type_error (a : CloseApproach)
    (des nm diam haz : PyVal) (h : a.neo = .neoObj des nm diam haz) :
    a.fullname = .error .typeError ∧ a.toStr = .error .typeError := by
  have hf : a.fullname = .error .typeError := by
    simp [CloseApproach.fullname, default_if_empty, h, truthy, typeSelfConv,
      exceptBindError]
  refine ⟨hf, ?_⟩
  cases htime : a.time with
  | dt t =>
      simp [CloseApproach.toStr, CloseApproach.time_str, htime, truthy, hf,
        exceptBindOk, exceptBindError]
  | none =>
      simp [CloseApproach.toStr, CloseApproach.time_str, htime, truthy,
        exceptBindOk, exceptBindError]
  | str s =>
      by_cases hs : s = "" <;>
        simp [CloseApproach.toStr, CloseApproach.time_str, htime, truthy, hs,
          exceptBindOk, exceptBindError]
  | float f =>
      cases f with
      | nan =>
          simp [CloseApproach.toStr, CloseApproach.time_str, htime, truthy,
            exceptBindOk, exceptBindError]
      | val q =>
          by_cases hq : q = 0 <;>
            simp [CloseApproach.toStr, CloseApproach.time_str, htime, truthy, hq,
              exceptBindOk, exceptBindError]
  | bool b =>
      cases b <;>
        simp [CloseApproach.toStr, CloseApproach.time_str, htime, truthy,
          exceptBindOk, exceptBindError]
  | date d =>
      simp [CloseApproach.toStr, CloseApproach.time_str, htime, truthy,
        exceptBindOk, exceptBindError]
  | neoObj w x y z =>
      simp [CloseApproach.toStr, CloseApproach.time_str, htime, truthy,
        exceptBindOk, exceptBindError]

/-- Claim C8, witness: a concrete linked approach (the Eros example)
raises `TypeError` from both `fullname` and `__str__`. -/
theorem linked_fullname_raises_type_error_witness :
    (⟨.str "433", .dt ⟨2020, 12, 31, 12, 0⟩, .float (.val (3 / 10)),
        .float (.val (11 / 2)),
        .neoObj (.str "433") (.str "Eros") (.float .nan) (.bool false)⟩ :
      CloseApproach).fullname = .error .typeError ∧
      (⟨.str "433", .dt ⟨2020, 12, 31, 12, 0⟩, .float (.val (3 / 10)),
          .float (.val (11 / 2)),
          .neoObj (.str "433") (.str "Eros") (.float .nan) (.bool false)⟩ :
        CloseApproach).toStr = .error .typeError :=
  linked_fullname_raises_type_error _ _ _ _ _ rfl

/-! ## Claim theorems: calendar date round-trip -/

theorem digitChar_isDigit (n : Nat) : (digitChar n).isDigit = true := by
  have h : n % 10 < 10 := Nat.mod_lt _ (by norm_num)
  unfold digitChar
  revert h
  generalize n % 10 = k
  intro h
  interval_cases k <;> decide

theorem natReprAux_digits :
    ∀ fuel n c, c ∈ natReprAux fuel n → c.isDigit = true := by
  intro fuel
  induction fuel with
  | zero => intro n c hc; simp [natReprAux] at hc
  | succ fuel ih =>
      intro n c hc
      unfold natReprAux at hc
      by_cases h : n < 10
      · simp only [if_pos h, List.mem_singleton] at hc
        exact hc ▸ digitChar_isDigit n
      · simp only [if_neg h, List.mem_append, List.mem_singleton] at hc
        rcases hc with hc | hc
        · exact ih _ _ hc
        · exact hc ▸ digitChar_isDigit n

theorem natReprAux_length_le :
    ∀ fuel k n, 0 < k → n < 10 ^ k → n < fuel →
      (natReprAux fuel n).length ≤ k := by
  intro fuel
  induction fuel with
  | zero => intro k n _ _ h; omega
  | succ fuel ih =>
      intro k n hk hnk hfuel
      unfold natReprAux
      by_cases h : n < 10
      · simp only [if_pos h, List.length_singleton]
        omega
      · simp only [if_neg h, List.length_append, List.length_singleton]
        have hk2 : 2 ≤ k := by
          by_contra hcon
          have hk1 : k = 1 := by omega
          subst hk1
          simp at hnk
          omega
        have hpow : (10 : Nat) ^ k = 10 ^ (k - 1) * 10 := by
          conv_lhs => rw [show k = (k - 1) + 1 by omega]
          rw [pow_succ]
        have hdiv : n / 10 < 10 ^ (k - 1) := by
          rw [Nat.div_lt_iff_lt_mul (by norm_num)]
          omega
        have hdivlt : n / 10 < n := Nat.div_lt_self (by omega) (by norm_num)
        have := ih (k - 1) (n / 10) (by omega) hdiv (by omega)
        omega

theorem natStr_digits (n : Nat) : ∀ c ∈ natStr n, c.isDigit = true :=
  fun c hc => natReprAux_digits _ _ _ hc

theorem natStr_length_le (k n : Nat) (hk : 0 < k) (h : n < 10 ^ k) :
    (natStr n).length ≤ k :=
  natReprAux_length_le _ _ _ hk h (by omega)

theorem padZeros_length (w : Nat) (l : List Char) (h : l.length ≤ w) :
    (padZeros w l).length = w := by
  simp [padZeros]
  omega

theorem padZeros_digits (w : Nat) (l : List Char)
    (hl : ∀ c ∈ l, c.isDigit = true) :
    ∀ c ∈ padZeros w l, c.isDigit = true := by
  intro c hc
  simp only [padZeros, List.mem_append] at hc
  rcases hc with hc | hc
  · have := List.eq_of_mem_replicate hc
    subst this
    decide
  · exact hl c hc

theorem exists_four (l : List Char) (h : l.length = 4) :
    ∃ a b c d, l = [a, b, c, d] := by
  cases l with
  | nil => simp at h
  | cons a l1 =>
    cases l1 with
    | nil => simp at h
    | cons b l2 =>
      cases l2 with
      | nil => simp at h
      | cons c l3 =>
        cases l3 with
        | nil => simp at h
        | cons d l4 =>
          cases l4 with
          | nil => exact ⟨a, b, c, d, rfl⟩
          | cons e l5 => simp at h

theorem read4Digits_of_digits (a b c d : Char) (rest : List Char)
    (ha : a.isDigit = true) (hb : b.isDigit = true) (hc : c.isDigit = true)
    (hd : d.isDigit = true) :
    read4Digits (a :: b :: c :: d :: rest) =
      some (1000 * (a.toNat - 48) + 100 * (b.toNat - 48) + 10 * (c.toNat - 48) +
        (d.toNat - 48), rest) := by
  simp [read4Digits, readDigit, ha, hb, hc, hd]

theorem expectChar_cons_self (c : Char) (rest : List Char) :
    expectChar c (c :: rest) = some rest := by
  simp [expectChar]

/-- Claim C1, counterexample: at the spec's own example `t` =
2020-12-31 12:00, parsing the rendered text does not round-trip — the
parse fails outright (`cd_to_datetime` raises `ValueError`, modelled as
`Option.none`). -/
theorem roundtrip_counterexample :
    cd_to_datetime (datetime_to_str ⟨2020, 12, 31, 12, 0⟩) ≠
      some ⟨2020, 12, 31, 12, 0⟩ := by
  decide

/-- Claim C1 (amended): the round-trip never holds.  For every valid
timestamp `t` (all such timestamps have zero seconds in this embedding),
`cd_to_datetime(datetime_to_str(t))` fails with a parse error:
`datetime_to_str` renders the month as two digits (`%m`) while
`cd_to_datetime` requires an English month abbreviation (`%b`), so the
month field can never match. -/
theorem roundtrip_always_fails (t : PyDateTime) (h : validDateTime t) :
    cd_to_datetime (datetime_to_str t) = none := by
  obtain ⟨y, mo, dy, hr, mi⟩ := t
  obtain ⟨hy1, hy2, hm1, hm2, hd1, hd2, hh, hmi⟩ := h
  simp only at hy1 hy2 hm1 hm2 hd1 hd2 hh hmi
  have hylen : (natStr y).length ≤ 4 :=
    natStr_length_le 4 y (by norm_num)
      (by have h4 : (10 : Nat) ^ 4 = 10000 := by norm_num
          omega)
  have hplen : (padZeros 4 (natStr y)).length = 4 := padZeros_length _ _ hylen
  obtain ⟨a, b, c, d, habcd⟩ := exists_four _ hplen
  have hdig : ∀ x ∈ padZeros 4 (natStr y), x.isDigit = true :=
    padZeros_digits _ _ (natStr_digits _)
  rw [habcd] at hdig
  have ha := hdig a (by simp)
  have hb := hdig b (by simp)
  have hc := hdig c (by simp)
  have hd := hdig d (by simp)
  show cdParse (formatChars ⟨y, mo, dy, hr, mi⟩) = none
  unfold formatChars
  simp only
  rw [habcd]
  simp only [List.cons_append, List.nil_append]
  unfold cdParse
  rw [read4Digits_of_digits a b c d _ ha hb hc hd]
  simp only []
  rw [expectChar_cons_self]
  simp only []
  interval_cases mo <;> rfl

/-- Claim C1, witness: the spec's example timestamp is a valid datetime
and parsing its rendering fails. -/
theorem roundtrip_always_fails_witness :
    validDateTime ⟨2020, 12, 31, 12, 0⟩ ∧
      cd_to_datetime (datetime_to_str ⟨2020, 12, 31, 12, 0⟩) = none :=
  ⟨by decide, roundtrip_always_fails _ (by decide)⟩
